import Mathlib

/-!
# Verification of the YNAB/PayPal transaction matcher

Shallow embedding of `src/matcher.py` (`TransactionMatcher`): the scorer
`_calculate_match_score`, the greedy matcher `match_transactions` /
`_find_best_match`, the confidence classifier `_get_confidence_level` and the
update-list builder `generate_update_script`.

Modelling conventions:
* Python floats are modelled by `ℚ` (exact arithmetic).
* Calendar dates are modelled by their day ordinal (`ℤ`, days since an epoch),
  so Python's `(a - b).days` becomes plain integer subtraction.  A date string
  that does not parse (`datetime.strptime` raising `ValueError`/`KeyError`)
  is modelled as `none` in an `Option ℤ` field.
* `dict.get(key)` for a possibly missing PayPal `transaction_id` is modelled
  as `Option String` (`none` = key absent, mirroring Python's `None`).
* The `matched_paypal_ids` set is modelled as a `List (Option String)` with
  membership; Python sets only matter here through `in` / `add`.
* A Python exception escaping a function is modelled with `Except String`:
  `match_transactions` parses each YNAB date outside any `try`, so an
  unparsable YNAB date is an `Except.error`, while the PayPal-side parse is
  wrapped in `try/except` inside the scorer and soft-fails to score `0`.
-/

/-- A normalized YNAB (ledger) transaction, as consumed by the matcher.
`date` is `none` when the stored date string would not parse. -/
structure YnabTxn where
  id : String
  date : Option Int
  amount : Rat
  payee_name : String := ""
  memo : String := ""
deriving Repr, DecidableEq

/-- A normalized PayPal (processor) transaction, as consumed by the matcher.
`transaction_id` is `none` when the key is missing (`dict.get` returns
`None`); `date` is `none` when the date string would not parse;
`gross_amount` defaults to `0` when missing (`dict.get(..., 0)`); `currency`
defaults to `""`; `item_title` uses `""` for missing-or-empty (Python
truthiness of `dict.get('item_title', '')`). -/
structure PaypalTxn where
  transaction_id : Option String
  date : Option Int
  gross_amount : Rat
  currency : String := ""
  merchant_name : String := ""
  item_title : String := ""
deriving Repr, DecidableEq

/-- One element of the list returned by `match_transactions`. -/
structure MatchResult where
  ynab : YnabTxn
  paypal : Option PaypalTxn
  score : Rat
  confidence : String
deriving Repr, DecidableEq

/-- One element of the list returned by `generate_update_script`. -/
structure UpdateInstruction where
  transaction_id : String
  new_memo : String
  merchant_name : String
  confidence : String
deriving Repr, DecidableEq

/-- The `TransactionMatcher` configuration (constructor arguments). -/
structure TransactionMatcher where
  date_tolerance_days : Int := 7
  amount_tolerance_percent : Rat := 3
deriving Repr, DecidableEq

/-- Python's `str.upper()`, as applied to currency codes: character-wise
ASCII uppercasing. -/
def pyUpper (s : String) : String := String.mk (s.data.map Char.toUpper)

/-- `TransactionMatcher._calculate_match_score`.  Python's early `return`s
are flattened into nested `if`s; the two `return 0.0` paths for an
out-of-range date and a zero gross amount, the partial-credit band, and the
final `min(total_score, 1.0)` follow the source line by line. -/
def TransactionMatcher.calculate_match_score (self : TransactionMatcher)
    (ynab_date : Int) (ynab_amount : Rat) (paypal_txn : PaypalTxn) : Rat :=
  match paypal_txn.date with
  | none => 0
  | some pp_date =>
    let date_diff : Int := ynab_date - pp_date
    if date_diff < 0 ∨ date_diff > self.date_tolerance_days then 0
    else
      let date_score : Rat := 1 - ((date_diff : Rat) / (self.date_tolerance_days : Rat)) * 0.5
      let pp_amount := paypal_txn.gross_amount
      if pp_amount = 0 then 0
      else
        let amount_diff_percent := |ynab_amount - pp_amount| / pp_amount * 100
        if amount_diff_percent > self.amount_tolerance_percent ∧
            ¬ amount_diff_percent ≤ self.amount_tolerance_percent * 2 then 0
        else
          let amount_score : Rat :=
            if amount_diff_percent > self.amount_tolerance_percent then 0.3
            else 1 - (amount_diff_percent / self.amount_tolerance_percent) * 0.3
          let currency_bonus : Rat := if pyUpper paypal_txn.currency = "GBP" then 0.1 else 0
          min (date_score * 0.4 + amount_score * 0.5 + currency_bonus) 1

/-- `TransactionMatcher._get_confidence_level`. -/
def TransactionMatcher.get_confidence_level (score : Rat) : String :=
  if score ≥ 0.9 then "high"
  else if score ≥ 0.7 then "medium"
  else if score ≥ 0.5 then "low"
  else "very_low"

/-- The loop body of `TransactionMatcher._find_best_match`: walk the PayPal
list keeping `(best_match, best_score)`, skipping already matched ids,
updating on `score > best_score and score >= 0.5`. -/
def TransactionMatcher.find_best_aux (self : TransactionMatcher)
    (ynab_date : Int) (ynab_amount : Rat) (already_matched : List (Option String)) :
    List PaypalTxn → Option PaypalTxn → Rat → Option PaypalTxn × Rat
  | [], best_match, best_score => (best_match, best_score)
  | pp_txn :: rest, best_match, best_score =>
    if pp_txn.transaction_id ∈ already_matched then
      TransactionMatcher.find_best_aux self ynab_date ynab_amount already_matched rest
        best_match best_score
    else
      let score := self.calculate_match_score ynab_date ynab_amount pp_txn
      if score > best_score ∧ score ≥ 0.5 then
        TransactionMatcher.find_best_aux self ynab_date ynab_amount already_matched rest
          (some pp_txn) score
      else
        TransactionMatcher.find_best_aux self ynab_date ynab_amount already_matched rest
          best_match best_score

/-- `TransactionMatcher._find_best_match`.  The YNAB date is parsed here,
outside any `try`: an unparsable YNAB date propagates as an exception
(`Except.error`), unlike the PayPal date handled inside the scorer. -/
def TransactionMatcher.find_best_match (self : TransactionMatcher)
    (ynab_txn : YnabTxn) (paypal_transactions : List PaypalTxn)
    (already_matched : List (Option String)) :
    Except String (Option (PaypalTxn × Rat)) :=
  match ynab_txn.date with
  | none => .error "ValueError: strptime"
  | some ynab_date =>
    match TransactionMatcher.find_best_aux self ynab_date |ynab_txn.amount|
        already_matched paypal_transactions none 0 with
    | (some best, best_score) => .ok (some (best, best_score))
    | (none, _) => .ok none

/-- The loop of `TransactionMatcher.match_transactions`, threading the
`matched_paypal_ids` state and returning it alongside the match list. -/
def TransactionMatcher.match_transactions_aux (self : TransactionMatcher)
    (paypal_transactions : List PaypalTxn) :
    List YnabTxn → List (Option String) →
    Except String (List MatchResult × List (Option String))
  | [], matched_paypal_ids => .ok ([], matched_paypal_ids)
  | ynab_txn :: rest, matched_paypal_ids =>
    match self.find_best_match ynab_txn paypal_transactions matched_paypal_ids with
    | .error e => .error e
    | .ok (some (paypal_txn, score)) =>
      match self.match_transactions_aux paypal_transactions rest
          (paypal_txn.transaction_id :: matched_paypal_ids) with
      | .error e => .error e
      | .ok (tail_matches, final_ids) =>
        .ok ({ ynab := ynab_txn, paypal := some paypal_txn, score := score,
               confidence := TransactionMatcher.get_confidence_level score } :: tail_matches,
             final_ids)
    | .ok none =>
      match self.match_transactions_aux paypal_transactions rest matched_paypal_ids with
      | .error e => .error e
      | .ok (tail_matches, final_ids) =>
        .ok ({ ynab := ynab_txn, paypal := none, score := 0,
               confidence := "no_match" } :: tail_matches,
             final_ids)

/-- `TransactionMatcher.match_transactions`. -/
def TransactionMatcher.match_transactions (self : TransactionMatcher)
    (ynab_transactions : List YnabTxn) (paypal_transactions : List PaypalTxn) :
    Except String (List MatchResult) :=
  (self.match_transactions_aux paypal_transactions ynab_transactions []).map Prod.fst

/-- The `confidence_levels` lookup in `generate_update_script`:
`dict.get(min_confidence, ['high'])`. -/
def allowed_confidence (min_confidence : String) : List String :=
  if min_confidence = "high" then ["high"]
  else if min_confidence = "medium" then ["high", "medium"]
  else if min_confidence = "low" then ["high", "medium", "low"]
  else ["high"]

/-- Renders a rational with two decimal places, modelling Python's
`f"{amount:.2f}"`. -/
def formatFixed2 (x : Rat) : String :=
  let n : Int := round (x * 100)
  let a := n.natAbs
  (if n < 0 then "-" else "") ++ toString (a / 100) ++ "." ++
    (if a % 100 < 10 then "0" else "") ++ toString (a % 100)

/-- `TransactionMatcher.generate_update_script`: filter matches with a
present PayPal side and allowed confidence, synthesizing the new memo from
merchant, optional item title and non-GBP currency tag.  (The source's
parameter is called `matches`, a reserved word in Lean.) -/
def TransactionMatcher.generate_update_script (match_list : List MatchResult)
    (min_confidence : String) : List UpdateInstruction :=
  match_list.filterMap fun mtch =>
    match mtch.paypal with
    | none => none
    | some paypal =>
      if mtch.confidence ∈ allowed_confidence min_confidence then
        let merchant := paypal.merchant_name
        let item := paypal.item_title
        let new_memo_parts : List String :=
          [merchant] ++ (if item ≠ "" then ["(" ++ item ++ ")"] else []) ++
            (if paypal.currency ≠ "GBP" then
              ["[" ++ paypal.currency ++ " " ++ formatFixed2 paypal.gross_amount ++ "]"]
            else [])
        some { transaction_id := mtch.ynab.id,
               new_memo := " ".intercalate new_memo_parts,
               merchant_name := merchant,
               confidence := mtch.confidence }
      else none

/-- Day ordinal of 2024-03-08 (days since 1970-01-01). -/
def day20240308 : Int := 19790

/-- Day ordinal of 2024-03-10 (days since 1970-01-01). -/
def day20240310 : Int := 19792

lemma pyUpper_GBP : pyUpper "GBP" = "GBP" := by decide

lemma pyUpper_empty : pyUpper "" = "" := by decide

/-- The PayPal record of the spec's worked scenario (§8): date 2024-03-08,
gross 25.00, currency GBP. -/
def scenarioPaypal : PaypalTxn :=
  { transaction_id := some "pp-1", date := some day20240308,
    gross_amount := 25, currency := "GBP", merchant_name := "Some Shop" }

/-- The YNAB record of the spec's worked scenario (§8): date 2024-03-10,
amount −25.00. -/
def scenarioYnab : YnabTxn :=
  { id := "y-1", date := some day20240310, amount := -25 }

lemma scenario_score_eval :
    TransactionMatcher.calculate_match_score {} day20240310 |(-25 : Rat)| scenarioPaypal
      = 33/35 := by
  norm_num [TransactionMatcher.calculate_match_score, scenarioPaypal,
    day20240310, day20240308, pyUpper_GBP, min_def]

lemma confidence_of_33_35 : TransactionMatcher.get_confidence_level (33/35) = "high" := by
  norm_num [TransactionMatcher.get_confidence_level]

/-- C1 (counterexample): on the scenario input the scorer returns exactly
`33/35 ≈ 0.943`, the classifier labels it `"high"`, and `33/35` is not close
to the claimed total `0.843`: the claim's total and tier are false on the
code. -/
theorem scenario_claim_false :
    TransactionMatcher.calculate_match_score {} day20240310 |(-25 : Rat)| scenarioPaypal
        = 33/35 ∧
    TransactionMatcher.get_confidence_level
        (TransactionMatcher.calculate_match_score {} day20240310 |(-25 : Rat)| scenarioPaypal)
        ≠ "medium" ∧
    ¬ |(33 : Rat)/35 - 0.843| ≤ 1/100 := by
  refine ⟨scenario_score_eval, ?_, by rw [abs_of_nonneg] <;> norm_num⟩
  rw [scenario_score_eval, confidence_of_33_35]
  decide

/-- C1 (amended): on the scenario input `days_diff = 2`,
`date_score = 1 - (2/7)*0.5 = 6/7 ≈ 0.857`, `amount_score = 1`, currency
bonus `0.1`, total `6/7*0.4 + 1*0.5 + 0.1 = 33/35 ≈ 0.943` (not `0.843`),
and the classifier assigns tier `"high"` (not `"medium"`). -/
theorem scenario_score_and_confidence :
    day20240310 - day20240308 = 2 ∧
    TransactionMatcher.calculate_match_score {} day20240310 |(-25 : Rat)| scenarioPaypal
        = 33/35 ∧
    (33 : Rat)/35 = (1 - (2/7) * 0.5) * 0.4 + 1 * 0.5 + 0.1 ∧
    TransactionMatcher.get_confidence_level
        (TransactionMatcher.calculate_match_score {} day20240310 |(-25 : Rat)| scenarioPaypal)
        = "high" := by
  refine ⟨by norm_num [day20240310, day20240308], scenario_score_eval, by norm_num, ?_⟩
  rw [scenario_score_eval, confidence_of_33_35]

/-- C3: the scorer returns exactly `0` (normally, with no exception
modelled) when the PayPal date is unparsable, or strictly after the YNAB
date, or more than `date_tolerance_days` before it, or when the gross
amount is zero. -/
theorem calculate_match_score_rejects (self : TransactionMatcher) (ynab_date : Int)
    (ynab_amount : Rat) (paypal_txn : PaypalTxn)
    (hd : 0 < self.date_tolerance_days) :
    (paypal_txn.date = none →
      self.calculate_match_score ynab_date ynab_amount paypal_txn = 0) ∧
    (∀ pp_date, paypal_txn.date = some pp_date → ynab_date < pp_date →
      self.calculate_match_score ynab_date ynab_amount paypal_txn = 0) ∧
    (∀ pp_date, paypal_txn.date = some pp_date →
      self.date_tolerance_days < ynab_date - pp_date →
      self.calculate_match_score ynab_date ynab_amount paypal_txn = 0) ∧
    (paypal_txn.gross_amount = 0 →
      self.calculate_match_score ynab_date ynab_amount paypal_txn = 0) := by
  refine ⟨fun hnone => ?_, fun pd hpd hlt => ?_, fun pd hpd hlt => ?_, fun hg => ?_⟩
  · simp [TransactionMatcher.calculate_match_score, hnone]
  · simp only [TransactionMatcher.calculate_match_score, hpd]
    rw [if_pos]
    exact Or.inl (by omega)
  · simp only [TransactionMatcher.calculate_match_score, hpd]
    rw [if_pos]
    exact Or.inr (by omega)
  · cases hpd : paypal_txn.date with
    | none => simp [TransactionMatcher.calculate_match_score, hpd]
    | some pp_date =>
      simp only [TransactionMatcher.calculate_match_score, hpd]
      split_ifs with h1 h2 h3 h4 h5 <;> first | rfl | exact absurd hg h2

/-- C4: the score never exceeds `1`, and it equals `1` only when the days
difference is `0`, the percentage amount difference is `0`, and the PayPal
currency uppercases to the home currency `"GBP"`. -/
theorem calculate_match_score_le_one (self : TransactionMatcher) (ynab_date : Int)
    (ynab_amount : Rat) (paypal_txn : PaypalTxn)
    (hd : 0 < self.date_tolerance_days)
    (ha : 0 < self.amount_tolerance_percent)
    (hg : 0 ≤ paypal_txn.gross_amount) :
    self.calculate_match_score ynab_date ynab_amount paypal_txn ≤ 1 ∧
    (self.calculate_match_score ynab_date ynab_amount paypal_txn = 1 →
      ∃ pp_date, paypal_txn.date = some pp_date ∧ ynab_date - pp_date = 0 ∧
        |ynab_amount - paypal_txn.gross_amount| / paypal_txn.gross_amount * 100 = 0 ∧
        pyUpper paypal_txn.currency = "GBP") := by
  cases hpd : paypal_txn.date with
  | none =>
    simp only [TransactionMatcher.calculate_match_score, hpd]
    exact ⟨by norm_num, fun h => absurd h (by norm_num)⟩
  | some pp_date =>
    simp only [TransactionMatcher.calculate_match_score, hpd]
    have htolq : (0 : Rat) < (self.date_tolerance_days : Rat) := by exact_mod_cast hd
    by_cases h1 : ynab_date - pp_date < 0 ∨ ynab_date - pp_date > self.date_tolerance_days
    · rw [if_pos h1]
      exact ⟨by norm_num, fun h => absurd h (by norm_num)⟩
    · rw [if_neg h1]
      by_cases h2 : paypal_txn.gross_amount = 0
      · rw [if_pos h2]
        exact ⟨by norm_num, fun h => absurd h (by norm_num)⟩
      · rw [if_neg h2]
        by_cases h3 :
            |ynab_amount - paypal_txn.gross_amount| / paypal_txn.gross_amount * 100 >
                self.amount_tolerance_percent ∧
              ¬ |ynab_amount - paypal_txn.gross_amount| / paypal_txn.gross_amount * 100 ≤
                self.amount_tolerance_percent * 2
        · rw [if_pos h3]
          exact ⟨by norm_num, fun h => absurd h (by norm_num)⟩
        · rw [if_neg h3]
          refine ⟨min_le_right _ _, fun hone => ?_⟩
          rw [min_eq_right_iff] at hone
          push_neg at h1
          have hdd0 : (0 : Rat) ≤ ((ynab_date - pp_date : Int) : Rat) := by
            exact_mod_cast h1.1
          have hq1 : (0 : Rat) ≤
              ((ynab_date - pp_date : Int) : Rat) / (self.date_tolerance_days : Rat) :=
            div_nonneg hdd0 (le_of_lt htolq)
          have hgross : (0 : Rat) < paypal_txn.gross_amount := lt_of_le_of_ne hg (Ne.symm h2)
          have hpct : (0 : Rat) ≤
              |ynab_amount - paypal_txn.gross_amount| / paypal_txn.gross_amount * 100 :=
            mul_nonneg (div_nonneg (abs_nonneg _) (le_of_lt hgross)) (by norm_num)
          have hq2 : (0 : Rat) ≤
              |ynab_amount - paypal_txn.gross_amount| / paypal_txn.gross_amount * 100 /
                self.amount_tolerance_percent :=
            div_nonneg hpct (le_of_lt ha)
          by_cases h5 : pyUpper paypal_txn.currency = "GBP"
          · rw [if_pos h5] at hone
            by_cases h4 :
                |ynab_amount - paypal_txn.gross_amount| / paypal_txn.gross_amount * 100 >
                  self.amount_tolerance_percent
            · rw [if_pos h4] at hone
              exact absurd hone (by push_neg; nlinarith)
            · rw [if_neg h4] at hone
              have hdsz :
                  ((ynab_date - pp_date : Int) : Rat) / (self.date_tolerance_days : Rat) = 0 :=
                le_antisymm (by nlinarith) hq1
              have haqz :
                  |ynab_amount - paypal_txn.gross_amount| / paypal_txn.gross_amount * 100 /
                    self.amount_tolerance_percent = 0 :=
                le_antisymm (by nlinarith) hq2
              refine ⟨pp_date, rfl, ?_, ?_, h5⟩
              · have hcast : ((ynab_date - pp_date : Int) : Rat) = 0 := by
                  rcases div_eq_zero_iff.mp hdsz with h | h
                  · exact h
                  · exact absurd h (ne_of_gt htolq)
                exact_mod_cast hcast
              · rcases div_eq_zero_iff.mp haqz with h | h
                · exact h
                · exact absurd h (ne_of_gt ha)
          · rw [if_neg h5] at hone
            by_cases h4 :
                |ynab_amount - paypal_txn.gross_amount| / paypal_txn.gross_amount * 100 >
                  self.amount_tolerance_percent
            · rw [if_pos h4] at hone
              exact absurd hone (by push_neg; nlinarith)
            · rw [if_neg h4] at hone
              exact absurd hone (by push_neg; nlinarith)

lemma get_confidence_level_ne_no_match (score : Rat) :
    TransactionMatcher.get_confidence_level score ≠ "no_match" := by
  unfold TransactionMatcher.get_confidence_level
  split_ifs <;> decide

/-- Any candidate returned by the loop of `_find_best_match` either is the
incoming accumulator pair, or is an unclaimed element of the remaining list
carrying its own score, at or above the `0.5` floor. -/
lemma find_best_aux_cases (self : TransactionMatcher) (ynab_date : Int) (ynab_amount : Rat)
    (already_matched : List (Option String)) :
    ∀ (ts : List PaypalTxn) (best : Option PaypalTxn) (bs : Rat) (p : PaypalTxn) (s : Rat),
      TransactionMatcher.find_best_aux self ynab_date ynab_amount already_matched ts best bs
        = (some p, s) →
      (best = some p ∧ bs = s) ∨
        (p ∈ ts ∧ p.transaction_id ∉ already_matched ∧
          s = self.calculate_match_score ynab_date ynab_amount p ∧ 0.5 ≤ s) := by
  intro ts
  induction ts with
  | nil =>
    intro best bs p s h
    simp only [TransactionMatcher.find_best_aux, Prod.mk.injEq] at h
    exact Or.inl h
  | cons pp rest ih =>
    intro best bs p s h
    simp only [TransactionMatcher.find_best_aux] at h
    split_ifs at h with hmem hscore
    · rcases ih _ _ _ _ h with h' | h'
      · exact Or.inl h'
      · exact Or.inr ⟨List.mem_cons_of_mem _ h'.1, h'.2⟩
    · rcases ih _ _ _ _ h with h' | h'
      · obtain ⟨h1, h2⟩ := h'
        injection h1 with h1
        subst h1
        subst h2
        exact Or.inr ⟨List.mem_cons_self _ _, hmem, rfl, hscore.2⟩
      · exact Or.inr ⟨List.mem_cons_of_mem _ h'.1, h'.2⟩
    · rcases ih _ _ _ _ h with h' | h'
      · exact Or.inl h'
      · exact Or.inr ⟨List.mem_cons_of_mem _ h'.1, h'.2⟩

/-- `_find_best_match` only ever returns an unclaimed member of the PayPal
list, with a score at or above the `0.5` floor. -/
lemma find_best_match_ok_some (self : TransactionMatcher) (ynab_txn : YnabTxn)
    (paypal_transactions : List PaypalTxn) (already_matched : List (Option String))
    (p : PaypalTxn) (s : Rat)
    (h : self.find_best_match ynab_txn paypal_transactions already_matched
      = .ok (some (p, s))) :
    p ∈ paypal_transactions ∧ p.transaction_id ∉ already_matched ∧ 0.5 ≤ s := by
  unfold TransactionMatcher.find_best_match at h
  cases hyd : ynab_txn.date with
  | none => simp only [hyd] at h; exact Except.noConfusion h
  | some yd =>
    simp only [hyd] at h
    cases hfb : TransactionMatcher.find_best_aux self yd |ynab_txn.amount| already_matched
        paypal_transactions none 0 with
    | mk fst snd =>
      simp only [hfb] at h
      cases fst with
      | none =>
        simp only [] at h
        injection h with h
        exact Option.noConfusion h
      | some q =>
        simp only [Except.ok.injEq, Option.some.injEq, Prod.mk.injEq] at h
        obtain ⟨hq, hs⟩ := h
        subst hq
        subst hs
        rcases find_best_aux_cases self yd |ynab_txn.amount| already_matched
            paypal_transactions none 0 q snd hfb with h' | h'
        · cases h'.1
        · exact ⟨h'.1, h'.2.1, h'.2.2.2⟩

/-- Inversion of one step of `match_transactions`: a successful run on
`y :: ys` either matched `y` (claiming the PayPal id) or emitted a
`no_match` result and left the claim set unchanged. -/
lemma match_aux_cons (self : TransactionMatcher) (pps : List PaypalTxn) (y : YnabTxn)
    (ys : List YnabTxn) (cl : List (Option String)) (rs : List MatchResult)
    (fin : List (Option String))
    (h : self.match_transactions_aux pps (y :: ys) cl = .ok (rs, fin)) :
    (∃ p s rs',
      self.find_best_match y pps cl = .ok (some (p, s)) ∧
      self.match_transactions_aux pps ys (p.transaction_id :: cl) = .ok (rs', fin) ∧
      rs = { ynab := y, paypal := some p, score := s,
             confidence := TransactionMatcher.get_confidence_level s } :: rs') ∨
    (∃ rs',
      self.find_best_match y pps cl = .ok none ∧
      self.match_transactions_aux pps ys cl = .ok (rs', fin) ∧
      rs = { ynab := y, paypal := none, score := 0, confidence := "no_match" } :: rs') := by
  simp only [TransactionMatcher.match_transactions_aux] at h
  cases hfb : self.find_best_match y pps cl with
  | error e => simp only [hfb] at h; exact Except.noConfusion h
  | ok ob =>
    simp only [hfb] at h
    cases ob with
    | some pr =>
      obtain ⟨p, s⟩ := pr
      cases haux : self.match_transactions_aux pps ys (p.transaction_id :: cl) with
      | error e => simp only [haux] at h; exact Except.noConfusion h
      | ok pr2 =>
        obtain ⟨rs', fin'⟩ := pr2
        simp only [haux, Except.ok.injEq, Prod.mk.injEq] at h
        obtain ⟨h1, h2⟩ := h
        subst h2
        exact Or.inl ⟨p, s, rs', rfl, haux, h1.symm⟩
    | none =>
      cases haux : self.match_transactions_aux pps ys cl with
      | error e => simp only [haux] at h; exact Except.noConfusion h
      | ok pr2 =>
        obtain ⟨rs', fin'⟩ := pr2
        simp only [haux, Except.ok.injEq, Prod.mk.injEq] at h
        obtain ⟨h1, h2⟩ := h
        subst h2
        exact Or.inr ⟨rs', rfl, rfl, h1.symm⟩

/-- Results of a successful run satisfy the `no_match` invariants, and any
matched PayPal record is an unclaimed member of the list scoring at least
`0.5`. -/
lemma match_aux_mem (self : TransactionMatcher) (pps : List PaypalTxn) :
    ∀ (ys : List YnabTxn) (cl : List (Option String)) (rs : List MatchResult)
      (fin : List (Option String)),
      self.match_transactions_aux pps ys cl = .ok (rs, fin) →
      ∀ r ∈ rs,
        ((r.confidence = "no_match" ↔ r.paypal = none) ∧
          (r.score = 0 ↔ r.confidence = "no_match")) ∧
        ∀ p, r.paypal = some p → p ∈ pps ∧ p.transaction_id ∉ cl ∧ 0.5 ≤ r.score := by
  intro ys
  induction ys with
  | nil =>
    intro cl rs fin h r hr
    simp only [TransactionMatcher.match_transactions_aux, Except.ok.injEq,
      Prod.mk.injEq] at h
    rw [← h.1] at hr
    cases hr
  | cons y ys ih =>
    intro cl rs fin h r hr
    rcases match_aux_cons self pps y ys cl rs fin h with
      ⟨p, s, rs', hfb, haux, hrs⟩ | ⟨rs', hfb, haux, hrs⟩
    · subst hrs
      rcases List.mem_cons.mp hr with hr0 | hr'
      · subst hr0
        obtain ⟨hmem, hnotin, hfloor⟩ := find_best_match_ok_some self y pps cl p s hfb
        refine ⟨⟨?_, ?_⟩, ?_⟩
        · constructor
          · intro hc
            exact absurd hc (get_confidence_level_ne_no_match s)
          · intro hp
            exact Option.noConfusion hp
        · constructor
          · intro hs0
            have : (0.5 : Rat) ≤ 0 := by
              rw [← hs0]
              exact hfloor
            exact absurd this (by norm_num)
          · intro hc
            exact absurd hc (get_confidence_level_ne_no_match s)
        · intro q hq
          simp only [Option.some.injEq] at hq
          subst hq
          exact ⟨hmem, hnotin, hfloor⟩
      · have hres := ih (p.transaction_id :: cl) rs' fin haux r hr'
        refine ⟨hres.1, fun q hq => ?_⟩
        obtain ⟨h1, h2, h3⟩ := hres.2 q hq
        exact ⟨h1, fun hx => h2 (List.mem_cons_of_mem _ hx), h3⟩
    · subst hrs
      rcases List.mem_cons.mp hr with hr0 | hr'
      · subst hr0
        exact ⟨⟨by simp, by simp⟩, fun q hq => Option.noConfusion hq⟩
      · exact ih cl rs' fin haux r hr'

/-- A successful run returns one result per YNAB record, in input order. -/
lemma match_aux_length_get (self : TransactionMatcher) (pps : List PaypalTxn) :
    ∀ (ys : List YnabTxn) (cl : List (Option String)) (rs : List MatchResult)
      (fin : List (Option String)),
      self.match_transactions_aux pps ys cl = .ok (rs, fin) →
      rs.length = ys.length ∧
        ∀ i (hi : i < rs.length) (hy : i < ys.length),
          (rs.get ⟨i, hi⟩).ynab = ys.get ⟨i, hy⟩ := by
  intro ys
  induction ys with
  | nil =>
    intro cl rs fin h
    simp only [TransactionMatcher.match_transactions_aux, Except.ok.injEq,
      Prod.mk.injEq] at h
    rw [← h.1]
    exact ⟨rfl, fun i hi hy => absurd hy (by simp)⟩
  | cons y ys ih =>
    intro cl rs fin h
    rcases match_aux_cons self pps y ys cl rs fin h with
      ⟨p, s, rs', hfb, haux, hrs⟩ | ⟨rs', hfb, haux, hrs⟩ <;>
      · subst hrs
        obtain ⟨hlen, hget⟩ := ih _ rs' fin haux
        refine ⟨by simp [hlen], ?_⟩
        intro i hi hy
        cases i with
        | zero => rfl
        | succ i => exact hget i (by simpa using hi) (by simpa using hy)

/-- Two different matched results of one successful run never carry the same
PayPal transaction id. -/
lemma match_aux_pairwise (self : TransactionMatcher) (pps : List PaypalTxn) :
    ∀ (ys : List YnabTxn) (cl : List (Option String)) (rs : List MatchResult)
      (fin : List (Option String)),
      self.match_transactions_aux pps ys cl = .ok (rs, fin) →
      List.Pairwise (fun a b => ∀ p q, a.paypal = some p → b.paypal = some q →
        p.transaction_id ≠ q.transaction_id) rs := by
  intro ys
  induction ys with
  | nil =>
    intro cl rs fin h
    simp only [TransactionMatcher.match_transactions_aux, Except.ok.injEq,
      Prod.mk.injEq] at h
    rw [← h.1]
    exact List.Pairwise.nil
  | cons y ys ih =>
    intro cl rs fin h
    rcases match_aux_cons self pps y ys cl rs fin h with
      ⟨p, s, rs', hfb, haux, hrs⟩ | ⟨rs', hfb, haux, hrs⟩
    · subst hrs
      refine List.Pairwise.cons ?_ (ih _ rs' fin haux)
      intro b hb pq q hpq hq
      simp only [Option.some.injEq] at hpq
      subst hpq
      obtain ⟨_, hnotin, _⟩ := (match_aux_mem self pps ys _ rs' fin haux b hb).2 q hq
      intro he
      exact hnotin (by rw [← he]; exact List.mem_cons_self _ _)
    · subst hrs
      refine List.Pairwise.cons ?_ (ih _ rs' fin haux)
      intro b hb pq q hpq hq
      exact Option.noConfusion hpq

/-- The claim set a successful run ends with contains the one it started
with. -/
lemma match_aux_claimed_subset (self : TransactionMatcher) (pps : List PaypalTxn) :
    ∀ (ys : List YnabTxn) (cl : List (Option String)) (rs : List MatchResult)
      (fin : List (Option String)),
      self.match_transactions_aux pps ys cl = .ok (rs, fin) → ∀ x ∈ cl, x ∈ fin := by
  intro ys
  induction ys with
  | nil =>
    intro cl rs fin h x hx
    simp only [TransactionMatcher.match_transactions_aux, Except.ok.injEq,
      Prod.mk.injEq] at h
    rw [← h.2]
    exact hx
  | cons y ys ih =>
    intro cl rs fin h x hx
    rcases match_aux_cons self pps y ys cl rs fin h with
      ⟨p, s, rs', hfb, haux, hrs⟩ | ⟨rs', hfb, haux, hrs⟩
    · exact ih _ rs' fin haux x (List.mem_cons_of_mem _ hx)
    · exact ih _ rs' fin haux x hx

/-- Monotone growth of the claim set: running the loop on one more YNAB
record only ever extends the set of claimed PayPal ids. -/
lemma match_aux_take_monotone (self : TransactionMatcher) (pps : List PaypalTxn) :
    ∀ (ys : List YnabTxn) (k : Nat) (cl : List (Option String))
      (rs₁ : List MatchResult) (c₁ : List (Option String))
      (rs₂ : List MatchResult) (c₂ : List (Option String)),
      self.match_transactions_aux pps (ys.take k) cl = .ok (rs₁, c₁) →
      self.match_transactions_aux pps (ys.take (k+1)) cl = .ok (rs₂, c₂) →
      ∀ x ∈ c₁, x ∈ c₂ := by
  intro ys
  induction ys with
  | nil =>
    intro k cl rs₁ c₁ rs₂ c₂ h1 h2 x hx
    simp only [List.take_nil, TransactionMatcher.match_transactions_aux,
      Except.ok.injEq, Prod.mk.injEq] at h1 h2
    rw [← h2.2]
    rw [← h1.2] at hx
    exact hx
  | cons y ys ih =>
    intro k cl rs₁ c₁ rs₂ c₂ h1 h2 x hx
    cases k with
    | zero =>
      simp only [List.take_zero, TransactionMatcher.match_transactions_aux,
        Except.ok.injEq, Prod.mk.injEq] at h1
      rw [← h1.2] at hx
      exact match_aux_claimed_subset self pps _ cl rs₂ c₂ h2 x hx
    | succ k =>
      simp only [List.take_succ_cons] at h1 h2
      rcases match_aux_cons self pps y (ys.take k) cl rs₁ c₁ h1 with
        ⟨p, s, rs', hfb, haux, hrs⟩ | ⟨rs', hfb, haux, hrs⟩
      · rcases match_aux_cons self pps y (ys.take (k+1)) cl rs₂ c₂ h2 with
          ⟨p2, s2, rs2', hfb2, haux2, hrs2⟩ | ⟨rs2', hfb2, haux2, hrs2⟩
        · rw [hfb] at hfb2
          simp only [Except.ok.injEq, Option.some.injEq, Prod.mk.injEq] at hfb2
          obtain ⟨hp2, hs2⟩ := hfb2
          subst hp2
          exact ih k _ rs' c₁ rs2' c₂ haux haux2 x hx
        · rw [hfb] at hfb2
          simp only [Except.ok.injEq] at hfb2
          exact Option.noConfusion hfb2
      · rcases match_aux_cons self pps y (ys.take (k+1)) cl rs₂ c₂ h2 with
          ⟨p2, s2, rs2', hfb2, haux2, hrs2⟩ | ⟨rs2', hfb2, haux2, hrs2⟩
        · rw [hfb] at hfb2
          simp only [Except.ok.injEq] at hfb2
          exact Option.noConfusion hfb2.symm
        · exact ih k cl rs' c₁ rs2' c₂ haux haux2 x hx

/-- Successful `match_transactions` runs come from successful loop runs. -/
lemma match_transactions_ok (self : TransactionMatcher) (ys : List YnabTxn)
    (pps : List PaypalTxn) (rs : List MatchResult)
    (h : self.match_transactions ys pps = .ok rs) :
    ∃ fin, self.match_transactions_aux pps ys [] = .ok (rs, fin) := by
  unfold TransactionMatcher.match_transactions at h
  cases haux : self.match_transactions_aux pps ys [] with
  | error e =>
    rw [haux] at h
    exact Except.noConfusion h
  | ok pr =>
    obtain ⟨rs', fin⟩ := pr
    rw [haux] at h
    simp only [Except.map, Except.ok.injEq] at h
    exact ⟨fin, by rw [h]⟩

/-- When every YNAB date parses, the loop cannot fail. -/
lemma match_aux_total (self : TransactionMatcher) (pps : List PaypalTxn) :
    ∀ (ys : List YnabTxn) (cl : List (Option String)),
      (∀ y ∈ ys, y.date ≠ none) →
      ∃ rs fin, self.match_transactions_aux pps ys cl = .ok (rs, fin) := by
  intro ys
  induction ys with
  | nil => exact fun cl _ => ⟨[], cl, rfl⟩
  | cons y ys ih =>
    intro cl hdates
    have hy : y.date ≠ none := hdates y (List.mem_cons_self _ _)
    cases hyd : y.date with
    | none => exact absurd hyd hy
    | some yd =>
      have hrest : ∀ y' ∈ ys, y'.date ≠ none :=
        fun y' hy' => hdates y' (List.mem_cons_of_mem _ hy')
      simp only [TransactionMatcher.match_transactions_aux,
        TransactionMatcher.find_best_match, hyd]
      cases hfb : TransactionMatcher.find_best_aux self yd |y.amount| cl pps none 0 with
      | mk fst snd =>
        cases fst with
        | some p =>
          obtain ⟨rs, fin, haux⟩ := ih (p.transaction_id :: cl) hrest
          exact ⟨{ ynab := y, paypal := some p, score := snd,
                   confidence := TransactionMatcher.get_confidence_level snd } :: rs, fin,
                 by simp only [haux]⟩
        | none =>
          obtain ⟨rs, fin, haux⟩ := ih cl hrest
          exact ⟨{ ynab := y, paypal := none, score := 0,
                   confidence := "no_match" } :: rs, fin,
                 by simp only [haux]⟩

/-- C2: in every successful `match_transactions` run, a result's confidence
is `"no_match"` exactly when its PayPal side is absent, and its score is `0`
exactly when its confidence is `"no_match"`. -/
theorem match_results_no_match_iff (self : TransactionMatcher) (ys : List YnabTxn)
    (pps : List PaypalTxn) (rs : List MatchResult)
    (h : self.match_transactions ys pps = .ok rs) :
    ∀ r ∈ rs,
      (r.confidence = "no_match" ↔ r.paypal = none) ∧
      (r.score = 0 ↔ r.confidence = "no_match") := by
  obtain ⟨fin, haux⟩ := match_transactions_ok self ys pps rs h
  exact fun r hr => (match_aux_mem self pps ys [] rs fin haux r hr).1

/-- C5: a successful `match_transactions` run returns exactly one result per
YNAB record, in the order of the YNAB input list. -/
theorem match_results_length_order (self : TransactionMatcher) (ys : List YnabTxn)
    (pps : List PaypalTxn) (rs : List MatchResult)
    (h : self.match_transactions ys pps = .ok rs) :
    rs.length = ys.length ∧
      ∀ i (hi : i < rs.length) (hy : i < ys.length),
        (rs.get ⟨i, hi⟩).ynab = ys.get ⟨i, hy⟩ := by
  obtain ⟨fin, haux⟩ := match_transactions_ok self ys pps rs h
  exact match_aux_length_get self pps ys [] rs fin haux

/-- C6: within one run no PayPal transaction id is assigned to two
different results, and the claim set only grows from each iteration of the
loop to the next. -/
theorem match_claim_set_exclusive_monotone (self : TransactionMatcher) (ys : List YnabTxn)
    (pps : List PaypalTxn) (rs : List MatchResult)
    (h : self.match_transactions ys pps = .ok rs) :
    List.Pairwise (fun a b => ∀ p q, a.paypal = some p → b.paypal = some q →
      p.transaction_id ≠ q.transaction_id) rs ∧
    ∀ (k : Nat) (rs₁ : List MatchResult) (c₁ : List (Option String))
      (rs₂ : List MatchResult) (c₂ : List (Option String)),
      self.match_transactions_aux pps (ys.take k) [] = .ok (rs₁, c₁) →
      self.match_transactions_aux pps (ys.take (k+1)) [] = .ok (rs₂, c₂) →
      ∀ x ∈ c₁, x ∈ c₂ := by
  obtain ⟨fin, haux⟩ := match_transactions_ok self ys pps rs h
  exact ⟨match_aux_pairwise self pps ys [] rs fin haux,
    fun k rs₁ c₁ rs₂ c₂ h1 h2 =>
      match_aux_take_monotone self pps ys k [] rs₁ c₁ rs₂ c₂ h1 h2⟩

/-- C10: once a result claims a PayPal record, no later result of the same
run can be a PayPal record carrying the same transaction id (including the
case of duplicate or missing ids). -/
theorem matched_id_never_rematched (self : TransactionMatcher) (ys : List YnabTxn)
    (pps : List PaypalTxn) (rs : List MatchResult)
    (h : self.match_transactions ys pps = .ok rs)
    (i j : Nat) (hi : i < rs.length) (hj : j < rs.length) (hij : i < j)
    (p q : PaypalTxn) (hp : (rs.get ⟨i, hi⟩).paypal = some p)
    (hq : q.transaction_id = p.transaction_id) :
    (rs.get ⟨j, hj⟩).paypal ≠ some q := by
  intro hqq
  obtain ⟨fin, haux⟩ := match_transactions_ok self ys pps rs h
  have hpw := match_aux_pairwise self pps ys [] rs fin haux
  have hR := (List.pairwise_iff_get.mp hpw) ⟨i, hi⟩ ⟨j, hj⟩ hij p q hp hqq
  exact hR hq.symm

/-- C8 (counterexample): one YNAB record whose date does not parse makes
`match_transactions` fail with the modelled `ValueError` — the `strptime`
call in `_find_best_match` is outside any `try`. -/
theorem unparsable_ynab_date_error :
    TransactionMatcher.match_transactions {}
        [{ id := "y-bad", date := none, amount := -25 }] []
      = .error "ValueError: strptime" := rfl

/-- C8 (amended): when every YNAB date parses, `match_transactions` always
succeeds, for every PayPal list — including PayPal records with unparsable
dates or zero amounts, which only soft-fail to score `0` inside the
scorer. -/
theorem match_transactions_total (self : TransactionMatcher) (ys : List YnabTxn)
    (pps : List PaypalTxn) (h : ∀ y ∈ ys, y.date ≠ none) :
    ∃ rs, self.match_transactions ys pps = .ok rs := by
  obtain ⟨rs, fin, haux⟩ := match_aux_total self pps ys [] h
  refine ⟨rs, ?_⟩
  unfold TransactionMatcher.match_transactions
  rw [haux]
  rfl

/-- C9: an unknown `min_confidence` string falls back to the `{high}`
allow-set: the update list is the one produced for `"high"` and only
carries high-confidence matches. -/
theorem update_script_unknown_min_confidence (match_list : List MatchResult)
    (min_confidence : String)
    (h : min_confidence ∉ (["high", "medium", "low"] : List String)) :
    TransactionMatcher.generate_update_script match_list min_confidence =
      TransactionMatcher.generate_update_script match_list "high" ∧
    ∀ u ∈ TransactionMatcher.generate_update_script match_list min_confidence,
      u.confidence = "high" := by
  simp only [List.mem_cons, List.not_mem_nil, or_false, not_or] at h
  obtain ⟨h1, h2, h3⟩ := h
  have hal : allowed_confidence min_confidence = ["high"] := by
    unfold allowed_confidence
    rw [if_neg h1, if_neg h2, if_neg h3]
  have hal2 : allowed_confidence "high" = ["high"] := by
    unfold allowed_confidence
    rw [if_pos rfl]
  constructor
  · unfold TransactionMatcher.generate_update_script
    simp only [hal, hal2]
  · intro u hu
    unfold TransactionMatcher.generate_update_script at hu
    simp only [hal] at hu
    obtain ⟨mtch, hm, hf⟩ := List.mem_filterMap.mp hu
    cases hpp : mtch.paypal with
    | none =>
      simp only [hpp] at hf
      exact Option.noConfusion hf
    | some pp =>
      simp only [hpp] at hf
      by_cases hc : mtch.confidence ∈ (["high"] : List String)
      · rw [if_pos hc] at hf
        injection hf with hf
        have hu' : u.confidence = mtch.confidence := by rw [← hf]
        rw [hu']
        simpa using hc
      · rw [if_neg hc] at hf
        exact Option.noConfusion hf

/-- If every remaining unclaimed candidate scores at most the current best
score, the loop keeps the current best pair. -/
lemma find_best_aux_keep (self : TransactionMatcher) (ynab_date : Int) (ynab_amount : Rat)
    (already_matched : List (Option String)) :
    ∀ (ts : List PaypalTxn) (p : PaypalTxn) (bs : Rat),
      (∀ q ∈ ts, q.transaction_id ∉ already_matched →
        self.calculate_match_score ynab_date ynab_amount q ≤ bs) →
      TransactionMatcher.find_best_aux self ynab_date ynab_amount already_matched ts
        (some p) bs = (some p, bs) := by
  intro ts
  induction ts with
  | nil => intro p bs _; rfl
  | cons q rest ih =>
    intro p bs hle
    simp only [TransactionMatcher.find_best_aux]
    by_cases hmem : q.transaction_id ∈ already_matched
    · rw [if_pos hmem]
      exact ih p bs (fun q' hq' h' => hle q' (List.mem_cons_of_mem _ hq') h')
    · rw [if_neg hmem]
      have hq : self.calculate_match_score ynab_date ynab_amount q ≤ bs :=
        hle q (List.mem_cons_self _ _) hmem
      rw [if_neg (fun hcond => absurd hcond.1 (not_lt.mpr hq))]
      exact ih p bs (fun q' hq' h' => hle q' (List.mem_cons_of_mem _ hq') h')

/-- The loop selects the first unclaimed candidate attaining a
floor-clearing maximum score, whatever accumulator it starts from below
that maximum. -/
lemma find_best_aux_first (self : TransactionMatcher) (ynab_date : Int) (ynab_amount : Rat)
    (already_matched : List (Option String)) (p : PaypalTxn) (l₂ : List PaypalTxn) (s : Rat)
    (hp : p.transaction_id ∉ already_matched)
    (hps : self.calculate_match_score ynab_date ynab_amount p = s)
    (hfloor : 0.5 ≤ s)
    (hl₂ : ∀ q ∈ l₂, q.transaction_id ∉ already_matched →
      self.calculate_match_score ynab_date ynab_amount q ≤ s) :
    ∀ (l₁ : List PaypalTxn) (best : Option PaypalTxn) (bs : Rat),
      (∀ q ∈ l₁, q.transaction_id ∉ already_matched →
        self.calculate_match_score ynab_date ynab_amount q < s) →
      bs < s →
      TransactionMatcher.find_best_aux self ynab_date ynab_amount already_matched
        (l₁ ++ p :: l₂) best bs = (some p, s) := by
  intro l₁
  induction l₁ with
  | nil =>
    intro best bs _ hbs
    simp only [List.nil_append, TransactionMatcher.find_best_aux]
    rw [if_neg hp, hps, if_pos ⟨hbs, hfloor⟩]
    exact find_best_aux_keep self ynab_date ynab_amount already_matched l₂ p s hl₂
  | cons a l₁ ih =>
    intro best bs ha hbs
    simp only [List.cons_append, TransactionMatcher.find_best_aux]
    by_cases hmem : a.transaction_id ∈ already_matched
    · rw [if_pos hmem]
      exact ih best bs (fun q hq h' => ha q (List.mem_cons_of_mem _ hq) h') hbs
    · rw [if_neg hmem]
      have has : self.calculate_match_score ynab_date ynab_amount a < s :=
        ha a (List.mem_cons_self _ _) hmem
      by_cases hcond : self.calculate_match_score ynab_date ynab_amount a > bs ∧
          self.calculate_match_score ynab_date ynab_amount a ≥ 0.5
      · rw [if_pos hcond]
        exact ih (some a) _ (fun q hq h' => ha q (List.mem_cons_of_mem _ hq) h') has
      · rw [if_neg hcond]
        exact ih best bs (fun q hq h' => ha q (List.mem_cons_of_mem _ hq) h') hbs

/-- C7: when an unclaimed candidate `p` attains the floor-clearing maximum
score for a YNAB record and at least one later unclaimed candidate ties it,
`_find_best_match` returns `p` — the first maximal candidate in
processor-list order. -/
theorem find_best_match_tie_break (self : TransactionMatcher) (ynab_txn : YnabTxn)
    (ynab_date : Int) (hyd : ynab_txn.date = some ynab_date)
    (already_matched : List (Option String)) (l₁ l₂ : List PaypalTxn)
    (p : PaypalTxn) (s : Rat)
    (hp : p.transaction_id ∉ already_matched)
    (hps : self.calculate_match_score ynab_date |ynab_txn.amount| p = s)
    (htie : ∃ q ∈ l₂, q.transaction_id ∉ already_matched ∧
      self.calculate_match_score ynab_date |ynab_txn.amount| q = s)
    (hfloor : 0.5 ≤ s)
    (hbefore : ∀ q ∈ l₁, q.transaction_id ∉ already_matched →
      self.calculate_match_score ynab_date |ynab_txn.amount| q < s)
    (hafter : ∀ q ∈ l₂, q.transaction_id ∉ already_matched →
      self.calculate_match_score ynab_date |ynab_txn.amount| q ≤ s) :
    self.find_best_match ynab_txn (l₁ ++ p :: l₂) already_matched = .ok (some (p, s)) := by
  unfold TransactionMatcher.find_best_match
  simp only [hyd]
  rw [find_best_aux_first self ynab_date |ynab_txn.amount| already_matched p l₂ s hp hps
    hfloor hafter l₁ none 0 hbefore (by linarith)]

/-- Example YNAB record: 2024-03-10, −25.00. -/
def yEx1 : YnabTxn := { id := "y1", date := some day20240310, amount := -25 }

/-- Second example YNAB record, same date and amount. -/
def yEx2 : YnabTxn := { id := "y2", date := some day20240310, amount := -25 }

/-- Example PayPal record scoring `33/35` against `yEx1`. -/
def ppEx1 : PaypalTxn :=
  { transaction_id := some "x", date := some day20240308, gross_amount := 25,
    currency := "GBP", merchant_name := "Shop A" }

/-- A distinct PayPal record with the same transaction id and score. -/
def ppEx2 : PaypalTxn :=
  { transaction_id := some "x", date := some day20240308, gross_amount := 25,
    currency := "GBP", merchant_name := "Shop B" }

/-- The matched result the example run produces for `yEx1`. -/
def rEx1 : MatchResult :=
  { ynab := yEx1, paypal := some ppEx1, score := 33/35, confidence := "high" }

/-- The `no_match` result the example run produces for `yEx2`. -/
def rEx2 : MatchResult :=
  { ynab := yEx2, paypal := none, score := 0, confidence := "no_match" }

lemma eval_score_ppEx1 :
    TransactionMatcher.calculate_match_score {} day20240310 |yEx1.amount| ppEx1 = 33/35 := by
  norm_num [TransactionMatcher.calculate_match_score, ppEx1, yEx1,
    day20240310, day20240308, pyUpper_GBP, min_def]

lemma eval_score_ppEx2 :
    TransactionMatcher.calculate_match_score {} day20240310 |yEx1.amount| ppEx2 = 33/35 := by
  norm_num [TransactionMatcher.calculate_match_score, ppEx2, yEx1,
    day20240310, day20240308, pyUpper_GBP, min_def]

lemma eval_run2 :
    TransactionMatcher.match_transactions {} [yEx1, yEx2] [ppEx1, ppEx2]
      = .ok [rEx1, rEx2] := by
  norm_num [TransactionMatcher.match_transactions,
    TransactionMatcher.match_transactions_aux, TransactionMatcher.find_best_match,
    TransactionMatcher.find_best_aux, TransactionMatcher.calculate_match_score,
    TransactionMatcher.get_confidence_level, yEx1, yEx2, ppEx1, ppEx2, rEx1, rEx2,
    day20240310, day20240308, pyUpper_GBP, min_def, Except.map]

/-- A PayPal record whose date string does not parse. -/
def ppBadDate : PaypalTxn := { transaction_id := none, date := none, gross_amount := 25 }

/-- C2 (witness): the invariant instantiated on a concrete two-record run. -/
theorem match_results_no_match_iff_witness :
    TransactionMatcher.match_transactions {} [yEx1, yEx2] [ppEx1, ppEx2] = .ok [rEx1, rEx2] ∧
    ((rEx2.confidence = "no_match" ↔ rEx2.paypal = none) ∧
      (rEx2.score = 0 ↔ rEx2.confidence = "no_match")) :=
  ⟨eval_run2, match_results_no_match_iff {} [yEx1, yEx2] [ppEx1, ppEx2] [rEx1, rEx2]
    eval_run2 rEx2 (by simp)⟩

/-- C5 (witness): output length equals YNAB input length on a concrete
run. -/
theorem match_results_length_order_witness :
    TransactionMatcher.match_transactions {} [yEx1, yEx2] [ppEx1, ppEx2] = .ok [rEx1, rEx2] ∧
    ([rEx1, rEx2] : List MatchResult).length = ([yEx1, yEx2] : List YnabTxn).length :=
  ⟨eval_run2,
    (match_results_length_order {} [yEx1, yEx2] [ppEx1, ppEx2] [rEx1, rEx2] eval_run2).1⟩

/-- C6 (witness): pairwise-distinct claimed ids on a concrete run. -/
theorem match_claim_set_exclusive_monotone_witness :
    TransactionMatcher.match_transactions {} [yEx1, yEx2] [ppEx1, ppEx2] = .ok [rEx1, rEx2] ∧
    List.Pairwise (fun a b => ∀ p q, a.paypal = some p → b.paypal = some q →
      p.transaction_id ≠ q.transaction_id) [rEx1, rEx2] :=
  ⟨eval_run2,
    (match_claim_set_exclusive_monotone {} [yEx1, yEx2] [ppEx1, ppEx2] [rEx1, rEx2]
      eval_run2).1⟩

/-- C10 (witness): `ppEx2` carries the id claimed via `ppEx1` in the first
iteration, so the second result cannot be `ppEx2`. -/
theorem matched_id_never_rematched_witness :
    ppEx2.transaction_id = ppEx1.transaction_id ∧
    (([rEx1, rEx2] : List MatchResult).get ⟨1, by norm_num⟩).paypal ≠ some ppEx2 :=
  ⟨rfl, matched_id_never_rematched {} [yEx1, yEx2] [ppEx1, ppEx2] [rEx1, rEx2] eval_run2
    0 1 (by norm_num) (by norm_num) (by norm_num) ppEx1 ppEx2 rfl rfl⟩

/-- C3 (witness): positive tolerance, unparsable PayPal date, score `0`. -/
theorem calculate_match_score_rejects_witness :
    (0 : Int) < ({} : TransactionMatcher).date_tolerance_days ∧
    TransactionMatcher.calculate_match_score {} day20240310 25 ppBadDate = 0 :=
  ⟨by decide,
    (calculate_match_score_rejects {} day20240310 25 ppBadDate (by decide)).1 rfl⟩

/-- C4 (witness): the bound instantiated on the scenario input. -/
theorem calculate_match_score_le_one_witness :
    (0 : Int) < ({} : TransactionMatcher).date_tolerance_days ∧
    (0 : Rat) < ({} : TransactionMatcher).amount_tolerance_percent ∧
    (0 : Rat) ≤ scenarioPaypal.gross_amount ∧
    TransactionMatcher.calculate_match_score {} day20240310 |(-25 : Rat)| scenarioPaypal ≤ 1 :=
  ⟨by decide, by show (0 : Rat) < 3; norm_num, by show (0 : Rat) ≤ 25; norm_num,
    (calculate_match_score_le_one {} day20240310 |(-25 : Rat)| scenarioPaypal (by decide)
      (by show (0 : Rat) < 3; norm_num) (by show (0 : Rat) ≤ 25; norm_num)).1⟩

/-- C7 (witness): two tied maximal candidates, the first is returned. -/
theorem find_best_match_tie_break_witness :
    ppEx1.transaction_id ∉ ([] : List (Option String)) ∧
    TransactionMatcher.calculate_match_score {} day20240310 |yEx1.amount| ppEx2 = 33/35 ∧
    TransactionMatcher.find_best_match {} yEx1 [ppEx1, ppEx2] []
      = .ok (some (ppEx1, 33/35)) :=
  ⟨by simp, eval_score_ppEx2,
    find_best_match_tie_break {} yEx1 day20240310 rfl [] [] [ppEx2] ppEx1 (33/35)
      (by simp) eval_score_ppEx1
      ⟨ppEx2, by simp, by simp, eval_score_ppEx2⟩
      (by norm_num)
      (by intro q hq; simp at hq)
      (by
        intro q hq hq2
        rw [List.mem_singleton] at hq
        subst hq
        exact le_of_eq eval_score_ppEx2)⟩

/-- C8 (witness): the amended totality statement on a concrete run whose
YNAB dates parse, against a malformed PayPal record. -/
theorem match_transactions_total_witness :
    (∀ y ∈ [yEx1], y.date ≠ none) ∧
    ∃ rs, TransactionMatcher.match_transactions {} [yEx1] [ppBadDate] = .ok rs :=
  ⟨by simp [yEx1], match_transactions_total {} [yEx1] [ppBadDate] (by simp [yEx1])⟩

/-- C9 (witness): an unknown confidence string on a concrete match list. -/
theorem update_script_unknown_min_confidence_witness :
    "very_low" ∉ (["high", "medium", "low"] : List String) ∧
    TransactionMatcher.generate_update_script [rEx1] "very_low"
      = TransactionMatcher.generate_update_script [rEx1] "high" :=
  ⟨by decide, (update_script_unknown_min_confidence [rEx1] "very_low" (by decide)).1⟩
